import Mathlib

/-!
Verification of the diff-hunk rendering and tooltip coordination logic of
`web/src/repo/compare/FileDiffHunks.tsx` (Mapana/sourcegraph).

The first part embeds the `DiffHunk` stateless component: the hunk body is
split on the newline character, the final segment is dropped, and each
remaining row is classified by its leading character and numbered with
running old/new line counters.
-/

namespace FileDiffHunks

/-- Classification of one body row, as decided by the three independent
checks on `line[0]` in `DiffHunk` (`' '` context, `'-'` removed, `'+'`
added, anything else gets none of the three marker classes). -/
inductive RowKind
  | context
  | removed
  | added
  | unlabeled
  deriving DecidableEq, Repr

/-- The first character of a row, `line[0]` in the source (absent for the
empty string, as `undefined` in JavaScript). -/
def headChar (line : String) : Option Char :=
  line.data.head?

/-- The marker class chosen for a row: translation of the three equality
checks `line[0] === ' '`, `line[0] === '-'`, `line[0] === '+'`. -/
def rowKind (line : String) : RowKind :=
  if headChar line = some ' ' then RowKind.context
  else if headChar line = some '-' then RowKind.removed
  else if headChar line = some '+' then RowKind.added
  else RowKind.unlabeled

/-- JavaScript `str.split('\n')` on the underlying character list: the
string is cut at every newline character; a trailing newline contributes a
final empty segment, and the empty string yields one empty segment. -/
def splitNlChars : List Char → List (List Char)
  | [] => [[]]
  | c :: cs =>
    if c = '\n' then [] :: splitNlChars cs
    else
      match splitNlChars cs with
      | [] => [[c]]
      | seg :: segs => (c :: seg) :: segs

/-- `body.split('\n')` of the source, as a list of strings. -/
def splitNl (s : String) : List String :=
  (splitNlChars s.data).map String.mk

/-- One rendered row of a hunk: its marker class, the old-side line number
shown in the left gutter cell (`none` when the cell is rendered empty, i.e.
for added rows), the new-side line number likewise (`none` for removed
rows), and the row text. -/
structure HunkRow where
  kind : RowKind
  oldNum : Option Nat
  newNum : Option Nat
  content : String
  deriving DecidableEq, Repr

/-- The row loop of `DiffHunk`: the counters `oldLine`/`newLine` are
incremented exactly when `line[0] !== '+'` respectively `line[0] !== '-'`,
and the gutter cells show `oldLine - 1` / `newLine - 1` after the
increments, the old cell only when `line[0] !== '+'` and the new cell only
when `line[0] !== '-'`. -/
def diffHunkRowsAux (oldLine newLine : Nat) : List String → List HunkRow
  | [] => []
  | line :: rest =>
    let oldLine2 := if headChar line ≠ some '+' then oldLine + 1 else oldLine
    let newLine2 := if headChar line ≠ some '-' then newLine + 1 else newLine
    { kind := rowKind line,
      oldNum := if headChar line ≠ some '+' then some (oldLine2 - 1) else none,
      newNum := if headChar line ≠ some '-' then some (newLine2 - 1) else none,
      content := line } :: diffHunkRowsAux oldLine2 newLine2 rest

/-- The full `DiffHunk` body pipeline: `hunk.body.split('\n').slice(0, -1)`
followed by the row loop, starting the counters at the hunk's old/new
start lines. -/
def diffHunkRows (oldStart newStart : Nat) (body : String) : List HunkRow :=
  diffHunkRowsAux oldStart newStart ((splitNl body).dropLast)

theorem rowKind_context {line : String} (h : rowKind line = RowKind.context) :
    headChar line = some ' ' := by
  unfold rowKind at h
  split_ifs at h
  all_goals simp_all

theorem rowKind_removed {line : String} (h : rowKind line = RowKind.removed) :
    headChar line = some '-' := by
  unfold rowKind at h
  split_ifs at h
  all_goals simp_all

theorem rowKind_added {line : String} (h : rowKind line = RowKind.added) :
    headChar line = some '+' := by
  unfold rowKind at h
  split_ifs at h
  all_goals simp_all

theorem rowKind_unlabeled {line : String} (h : rowKind line = RowKind.unlabeled) :
    headChar line ≠ some ' ' ∧ headChar line ≠ some '-' ∧ headChar line ≠ some '+' := by
  unfold rowKind at h
  split_ifs at h
  all_goals simp_all

theorem diffHunkRowsAux_content (oldLine newLine : Nat) (rows : List String) :
    (diffHunkRowsAux oldLine newLine rows).map HunkRow.content = rows := by
  induction rows generalizing oldLine newLine with
  | nil => rfl
  | cons line rest ih => simp [diffHunkRowsAux, ih]

theorem diffHunkRowsAux_length (oldLine newLine : Nat) (rows : List String) :
    (diffHunkRowsAux oldLine newLine rows).length = rows.length := by
  induction rows generalizing oldLine newLine with
  | nil => rfl
  | cons line rest ih => simp [diffHunkRowsAux, ih]

/-- Claim C2: the row numbering starts the old/new counters at the hunk's
old/new start lines; a context row shows both current numbers and advances
both counters, a removed row shows and advances only the old counter, an
added row shows and advances only the new counter; and the body
" 1\n-2\n+3\n+4\n" with both start lines 1 yields rows context(old 1, new 1),
removed(old 2, new absent), added(old absent, new 2), added(old absent, new 3). -/
theorem hunk_line_numbering :
    (∀ o n line rest, rowKind line = RowKind.context →
      diffHunkRowsAux o n (line :: rest) =
        ⟨RowKind.context, some o, some n, line⟩ :: diffHunkRowsAux (o + 1) (n + 1) rest)
  ∧ (∀ o n line rest, rowKind line = RowKind.removed →
      diffHunkRowsAux o n (line :: rest) =
        ⟨RowKind.removed, some o, none, line⟩ :: diffHunkRowsAux (o + 1) n rest)
  ∧ (∀ o n line rest, rowKind line = RowKind.added →
      diffHunkRowsAux o n (line :: rest) =
        ⟨RowKind.added, none, some n, line⟩ :: diffHunkRowsAux o (n + 1) rest)
  ∧ diffHunkRows 1 1 " 1\n-2\n+3\n+4\n" =
      [⟨RowKind.context, some 1, some 1, " 1"⟩,
       ⟨RowKind.removed, some 2, none, "-2"⟩,
       ⟨RowKind.added, none, some 2, "+3"⟩,
       ⟨RowKind.added, none, some 3, "+4"⟩] := by
  refine ⟨?_, ?_, ?_, by decide⟩
  · intro o n line rest h
    have hc := rowKind_context h
    simp [diffHunkRowsAux, hc, h]
  · intro o n line rest h
    have hc := rowKind_removed h
    simp [diffHunkRowsAux, hc, h]
  · intro o n line rest h
    have hc := rowKind_added h
    simp [diffHunkRowsAux, hc, h]

/-- Witness for `hunk_line_numbering` at concrete rows of each kind. -/
theorem hunk_line_numbering_witness :
    diffHunkRowsAux 5 7 [" x"] = [⟨RowKind.context, some 5, some 7, " x"⟩]
  ∧ diffHunkRowsAux 5 7 ["-x"] = [⟨RowKind.removed, some 5, none, "-x"⟩]
  ∧ diffHunkRowsAux 5 7 ["+x"] = [⟨RowKind.added, none, some 7, "+x"⟩] :=
  ⟨hunk_line_numbering.1 5 7 " x" [] (by decide),
   hunk_line_numbering.2.1 5 7 "-x" [] (by decide),
   hunk_line_numbering.2.2.1 5 7 "+x" [] (by decide)⟩

/-- Claim C5 counterexample: the hunk body "x1\n 2\n" contains a malformed
first row, yet the hunk is not rendered as plain unlabeled text — its
second row still carries the context marker class (and no error interrupts
rendering: the row list is produced in full). -/
theorem malformed_hunk_counterexample :
    ¬ ∀ r ∈ diffHunkRows 1 1 "x1\n 2\n", r.kind = RowKind.unlabeled := by
  decide

/-- Claim C5 amended: a body row whose leading character is not one of
' ', '-', '+' is not an error and does not make the whole hunk unlabeled:
that row alone is rendered with none of the three marker classes, both
counters advance and both line numbers are shown on it, and the remaining
rows are rendered normally with their own classification (rendering is a
total function, so nothing crashes). -/
theorem malformed_row_rendered_unlabeled :
    (∀ o n line rest, rowKind line = RowKind.unlabeled →
      diffHunkRowsAux o n (line :: rest) =
        ⟨RowKind.unlabeled, some o, some n, line⟩ :: diffHunkRowsAux (o + 1) (n + 1) rest)
  ∧ diffHunkRows 1 1 "x1\n 2\n" =
      [⟨RowKind.unlabeled, some 1, some 1, "x1"⟩,
       ⟨RowKind.context, some 2, some 2, " 2"⟩] := by
  refine ⟨?_, by decide⟩
  intro o n line rest h
  have hc := rowKind_unlabeled h
  simp [diffHunkRowsAux, hc.2.1, hc.2.2, h]

/-- Witness for `malformed_row_rendered_unlabeled` at a concrete malformed row. -/
theorem malformed_row_rendered_unlabeled_witness :
    diffHunkRowsAux 4 9 ["@@x"] = [⟨RowKind.unlabeled, some 4, some 9, "@@x"⟩] :=
  malformed_row_rendered_unlabeled.1 4 9 "@@x" [] (by decide)

/-- Claim C10: the pipeline drops the final segment of splitting the body
on the newline character unconditionally — the rendered row contents are
exactly `dropLast` of the split — so whenever the split ends in a segment
(empty from a trailing terminator or not), that segment is neither rendered
nor counted by the numbering loop; in particular for the terminator-free
body " a\n b" the last actual line " b" is dropped. -/
theorem trailing_segment_dropped :
    (∀ o n body, (diffHunkRows o n body).map HunkRow.content = (splitNl body).dropLast)
  ∧ (∀ o n body segs seg, splitNl body = segs ++ [seg] →
      (diffHunkRows o n body).map HunkRow.content = segs
    ∧ (diffHunkRows o n body).length = segs.length)
  ∧ (diffHunkRows 3 3 " a\n b").map HunkRow.content = [" a"]
  ∧ (diffHunkRows 3 3 " a\n b").length = 1 := by
  refine ⟨?_, ?_, by decide, by decide⟩
  · intro o n body
    simp [diffHunkRows, diffHunkRowsAux_content]
  · intro o n body segs seg h
    constructor
    · simp [diffHunkRows, diffHunkRowsAux_content, h]
    · simp [diffHunkRows, diffHunkRowsAux_length, h]

/-- Witness for `trailing_segment_dropped`: a one-line body with no
terminator renders no rows at all. -/
theorem trailing_segment_dropped_witness :
    (diffHunkRows 0 0 "+q").map HunkRow.content = [] ∧ (diffHunkRows 0 0 "+q").length = 0 :=
  trailing_segment_dropped.2.1 0 0 "+q" [] "+q" (by decide)

/-!
Timed-event semantics for the reactive pipelines of `setElement`.

An observable is modelled by its finite list of emissions, each tagged with
the virtual time at which it is delivered (the component runs on a single
event loop, so emissions are totally ordered and never truly simultaneous).
-/

/-- A timed event stream: each emission carries its delivery time. -/
abbrev TEvents (α : Type) := List (Nat × α)

/-- The map operator: transforms every emitted value, preserving times. -/
def mapT (f : α → β) (s : TEvents α) : TEvents β :=
  s.map fun e => (e.1, f e.2)

/-- `takeUntil(notifier)`: the stream is mirrored only until the notifier
first emits; every emission from that instant on is suppressed, because the
operator unsubscribes from its source when the notifier fires. `none`
means the notifier never emits. -/
def takeUntilT (notifier : Option Nat) (s : TEvents α) : TEvents α :=
  match notifier with
  | none => s
  | some t => s.filter fun e => e.1 < t

/-- The i-th emission of `interval(period)` subscribed at time `t0`:
value `i` delivered at `t0 + period * (i + 1)`. -/
def intervalAt (t0 period i : Nat) : Nat × Nat :=
  (t0 + period * (i + 1), i)

/-- `take(n)` applied to an interval source: only its first `n` emissions
are delivered, then the subscription completes. -/
def takeFrom (n : Nat) (f : Nat → Nat × Nat) : TEvents Nat :=
  (List.range n).map f

/-- `getLoadingTooltip` (FileDiffHunks.tsx lines 428-434):
`interval(500).pipe(take(1), takeUntil(tooltip), map(() => loadingData))`,
subscribed at time `t0`, where `hoverFirst` is the time of the hover
lookup's (first and only) emission, `none` if it never resolves, and `v`
the loading tooltip payload. -/
def getLoadingTooltipT (t0 : Nat) (hoverFirst : Option Nat) (v : α) : TEvents α :=
  mapT (fun _ => v) (takeUntilT hoverFirst (takeFrom 1 (intervalAt t0 500)))

/-- `switchMap`: the unsubscription cutoff for the inner chain started by
outer emission `i` is the arrival time of outer emission `i + 1`. -/
def switchCutoff (outer : TEvents γ) (i : Nat) : Option Nat :=
  (outer.get? (i + 1)).map Prod.fst

/-- The emissions attributable to the inner lookup chain started by outer
gesture `i` under `switchMap`: the chain is subscribed when gesture `i`
arrives and unsubscribed the instant the next gesture arrives. -/
def chainEmissions (inner : γ → Nat → TEvents α) (outer : TEvents γ) (i : Nat) : TEvents α :=
  match outer.get? i with
  | none => []
  | some g => takeUntilT (switchCutoff outer i) (inner g.2 g.1)

/-- The output of the `switchMap` gesture pipeline: the concatenation of
every gesture's (truncated) inner chain. -/
def switchMapT (inner : γ → Nat → TEvents α) (outer : TEvents γ) : TEvents α :=
  (List.range outer.length).flatMap (chainEmissions inner outer)

/-- Claim C1: under the `switchMap` of the gesture pipeline, starting the
lookup chain for a new gesture cancels the still-pending chain of the
previous gesture — if gesture B (outer emission `i + 1`, at time `tB`)
begins after gesture A (outer emission `i`), then every emission
attributable to A's chain is delivered strictly before `tB`, so no state
transition attributable to A's lookup occurs once B's gesture has begun. -/
theorem switchMap_cancels_previous_chain (inner : γ → Nat → TEvents α)
    (outer : TEvents γ) (i tB : Nat) (vB : γ)
    (hB : outer.get? (i + 1) = some (tB, vB)) :
    ∀ e ∈ chainEmissions inner outer i, e.1 < tB := by
  intro e he
  unfold chainEmissions at he
  cases hg : outer.get? i with
  | none => rw [hg] at he; cases he
  | some g =>
      rw [hg] at he
      unfold switchCutoff at he
      rw [hB] at he
      simp only [Option.map_some] at he
      unfold takeUntilT at he
      have := List.of_mem_filter he
      exact of_decide_eq_true this

/-- Witness for `switchMap_cancels_previous_chain`: two gestures at times
0 and 200, with a lookup that resolves 100 time units after subscription;
gesture A's chain emits at time 100, strictly before gesture B begins. -/
theorem switchMap_cancels_previous_chain_witness :
    chainEmissions (fun (v t : Nat) => [(t + 100, v)]) [(0, 0), (200, 1)] 0 = [(100, 0)]
  ∧ (100 : Nat) < 200 :=
  ⟨by decide,
   switchMap_cancels_previous_chain (fun (v t : Nat) => [(t + 100, v)])
     [(0, 0), (200, 1)] 0 200 1 (by decide) (100, 0) (by decide)⟩

/-- Claim C7: the 500-unit loading timer and the hover lookup race.
If the hover lookup never resolves, the loading emission fires at
`t0 + 500`; if the hover lookup resolves at or before the timer's expiry,
the timer is unsubscribed and never fires (a late timer whose lookup
already completed emits nothing); only when the hover resolves strictly
after the expiry does the loading transition fire. -/
theorem loading_timer_races_hover (t0 th : Nat) (v : α) :
    getLoadingTooltipT t0 none v = [(t0 + 500, v)]
  ∧ (th ≤ t0 + 500 → getLoadingTooltipT t0 (some th) v = [])
  ∧ (t0 + 500 < th → getLoadingTooltipT t0 (some th) v = [(t0 + 500, v)]) := by
  have hr : List.range 1 = [0] := rfl
  refine ⟨?_, ?_, ?_⟩
  · simp [getLoadingTooltipT, mapT, takeUntilT, takeFrom, intervalAt, hr]
  · intro h
    have hge : ¬ (t0 + 500 * (0 + 1) < th) := by omega
    simp [getLoadingTooltipT, mapT, takeUntilT, takeFrom, intervalAt, hr, hge]
  · intro h
    have hlt : t0 + 500 * (0 + 1) < th := by omega
    simp [getLoadingTooltipT, mapT, takeUntilT, takeFrom, intervalAt, hr, hlt]

/-- Witness for `loading_timer_races_hover`: with subscription at time 0,
a hover resolving at 100 suppresses the timer, one resolving at 700 lets
it fire at 500. -/
theorem loading_timer_races_hover_witness :
    getLoadingTooltipT 0 (some 100) true = []
  ∧ getLoadingTooltipT 0 (some 700) true = [(500, true)] :=
  ⟨(loading_timer_races_hover 0 100 true).2.1 (by decide),
   (loading_timer_races_hover 0 700 true).2.2 (by decide)⟩

/-!
State model of the tooltip coordination in the `FileDiffHunks` component:
the `fixedTooltip` React state field, the two global highlight class sets
(`selection-highlight` and `selection-highlight-sticky`), the single
overlay tooltip's visibility, and the telemetry log.
-/

/-- Opaque identity of a grid cell (the `target` element of a gesture). -/
abbrev Anchor := Nat

/-- The semantic position a lookup is issued for (the `ctx` built from
`getTargetLineAndOffset`): which side of the diff, line, and character. -/
structure Pos where
  onHead : Bool
  line : Nat
  character : Nat
  deriving DecidableEq, Repr

/-- The `TooltipData` payload: its anchor element, its position, the hover
contents (`none` when the hover is empty), the loading flag, and the
`defUrlOrError` field (`none` models `undefined`; the source maps a `null`
definition response to `undefined` via `defResponse || undefined`). -/
structure TooltipData where
  target : Anchor
  ctx : Pos
  contents : Option String := none
  loading : Bool := false
  defUrlOrError : Option String := none
  deriving DecidableEq, Repr

/-- Telemetry events logged by the component through `eventLogger.log`. -/
inductive Telemetry
  | tooltipDocked
  | tooltipDockedWithDefinition
  | goToDefClicked
  | findRefsClicked
  deriving DecidableEq, Repr

/-- The mutable state touched by the tooltip coordination: the docked
(`fixedTooltip`) state field, the anchors currently carrying the
`selection-highlight` class, the anchors carrying
`selection-highlight-sticky`, whether the single overlay tooltip is
visible, and the telemetry events logged so far. -/
structure CoordState where
  fixedTooltip : Option TooltipData := none
  highlighted : List Anchor := []
  sticky : List Anchor := []
  tooltipShown : Bool := false
  logs : List Telemetry := []
  deriving DecidableEq, Repr

/-- The two clearing loops at the top of `setFixedTooltip`: every element
with either highlight class loses it. -/
def clearHighlightClasses (s : CoordState) : CoordState :=
  { s with highlighted := [], sticky := [] }

/-- `FileDiffHunks.setFixedTooltip` (lines 378-396): clear both highlight
classes everywhere; with data, log a docked telemetry event ("with
definition" exactly when `defUrlOrError` is present), add the sticky class
to the data's target and store it as the fixed tooltip; without data, hide
the overlay tooltip and clear the fixed tooltip. -/
def setFixedTooltip (s : CoordState) (data : Option TooltipData) : CoordState :=
  let s2 := clearHighlightClasses s
  match data with
  | some d =>
      { s2 with
        logs := s2.logs ++
          [if d.defUrlOrError = none then Telemetry.tooltipDocked
           else Telemetry.tooltipDockedWithDefinition],
        sticky := [d.target],
        fixedTooltip := some d }
  | none =>
      { s2 with tooltipShown := false, fixedTooltip := none }

/-- `handleDismiss`: calls `setFixedTooltip` with no data. -/
def handleDismiss (s : CoordState) : CoordState :=
  setFixedTooltip s none

/-- The window keydown subscription: only the Escape key passes the filter
and triggers `handleDismiss`; any other key leaves the state alone. -/
def keydownStep (key : String) (s : CoordState) : CoordState :=
  if key = "Escape" then handleDismiss s else s

/-- The `mouseout` subscription (lines 298-307): remove the
`selection-highlight` class everywhere; if no tooltip is docked, hide the
overlay tooltip. -/
def mouseoutStep (s : CoordState) : CoordState :=
  let s2 := { s with highlighted := [] }
  if s2.fixedTooltip = none then { s2 with tooltipShown := false } else s2

/-- The state-touching events of the component: a dock (a call of
`setFixedTooltip` with data), a dismiss, a keydown, a mouseout, the
`getTooltip` tap adding `selection-highlight` to a gesture's target, and a
transient `updateTooltip` (guarded in the subscriber by the absence of a
fixed tooltip). -/
inductive CoordEvent
  | dock (d : TooltipData)
  | dismiss
  | keydown (key : String)
  | mouseout
  | hoverHighlight (t : Anchor)
  | transientShow
  deriving Repr

/-- One transition of the coordinator state. -/
def coordStep (s : CoordState) : CoordEvent → CoordState
  | CoordEvent.dock d => setFixedTooltip s (some d)
  | CoordEvent.dismiss => handleDismiss s
  | CoordEvent.keydown k => keydownStep k s
  | CoordEvent.mouseout => mouseoutStep s
  | CoordEvent.hoverHighlight t => { s with highlighted := s.highlighted ++ [t] }
  | CoordEvent.transientShow =>
      if s.fixedTooltip = none then { s with tooltipShown := true } else s

/-- The component's state right after mount: nothing docked, no classes,
no overlay, nothing logged. -/
def initState : CoordState := {}

/-- The state reached after a sequence of events from mount. -/
def runCoord (events : List CoordEvent) : CoordState :=
  events.foldl coordStep initState

/-- The two call sites of `getDefinition` in the component: the call made
inside the gesture pipeline's `switchMap` (line 274, whose returned
observable is discarded), and the call made in the fixed-tooltip pipe when
a tooltip is docked (line 207, subscribed through `zip`). -/
inductive DefCallSite
  | hoverPreFetch
  | dockReFetch
  deriving DecidableEq, Repr

/-- A network round trip issued by a subscribed lookup observable. -/
inductive FetchEvent
  | hoverFetch (ctx : Pos)
  | defFetch (site : DefCallSite) (ctx : Pos)
  deriving DecidableEq, Repr

/-- Round trips performed by one hover gesture (the `switchMap` body,
lines 268-285): `merge(loading, tooltip)` subscribes the hover lookup; the
observable built by the bare `this.getDefinition(ctx)` call is discarded
without being subscribed, so no definition round trip is awaited by the
gesture and its value never reaches the pipeline. -/
def hoverGestureFetches (ctx : Pos) : List FetchEvent :=
  [FetchEvent.hoverFetch ctx]

/-- Round trips performed when a tooltip is docked (the fixed-tooltip pipe,
lines 186-220): `getTooltip` is run again, and `zip` subscribes a fresh
`getDefinition` call. -/
def dockFetches (ctx : Pos) : List FetchEvent :=
  [FetchEvent.hoverFetch ctx, FetchEvent.defFetch DefCallSite.dockReFetch ctx]

/-- The fixed-tooltip pipe processing one docked position (lines 186-236).
`hover` gives the hover service's contents for a position (`none` for an
empty hover) and `defSvc` the definition service's answer per call site.
Stage 1 is `getTooltip`'s tap (highlight the target when the hover is
non-empty). Stage 2 is the pipe's own tap: an empty hover clears the fixed
tooltip, otherwise the hover payload — whose `defUrlOrError` is still
undefined — is docked and the overlay shown. Stage 3 zips in the dock-time
`getDefinition` result and docks the combined payload. -/
def dockPipeline (hover : Pos → Option String) (defSvc : DefCallSite → Option String)
    (s : CoordState) (target : Anchor) (ctx : Pos) : CoordState :=
  let tooltip : TooltipData := { target := target, ctx := ctx, contents := hover ctx }
  let s0 := if tooltip.contents = none then s
            else { s with highlighted := s.highlighted ++ [target] }
  let s1 := if tooltip.contents = none then setFixedTooltip s0 none
            else { setFixedTooltip s0 (some tooltip) with tooltipShown := true }
  let docked : TooltipData := { tooltip with defUrlOrError := defSvc DefCallSite.dockReFetch }
  if docked.contents = none then setFixedTooltip s1 none
  else { setFixedTooltip s1 (some docked) with tooltipShown := true }

/-- A mouse event's modifier flags, as read by the navigation handlers. -/
structure MouseEvt where
  shiftKey : Bool
  ctrlKey : Bool
  altKey : Bool
  metaKey : Bool
  deriving DecidableEq, Repr

/-- `e.shiftKey || e.ctrlKey || e.altKey || e.metaKey`. -/
def hasModifier (e : MouseEvt) : Bool :=
  e.shiftKey || e.ctrlKey || e.altKey || e.metaKey

/-- The navigation destinations pushed onto the history by the two
tooltip actions. -/
inductive NavTarget
  | blobURL (ctx : Pos)
  | referencesURL (ctx : Pos)
  deriving DecidableEq, Repr

/-- What a navigation handler did to the browser event and history. -/
structure NavOutcome where
  logs : List Telemetry
  defaultPrevented : Bool
  pushed : Option NavTarget
  deriving DecidableEq, Repr

/-- `handleGoToDefinition` (lines 436-445): always log `GoToDefClicked`;
with any modifier held, return before touching the event or history;
otherwise prevent the default, hide the tooltip, clear the fixed tooltip
and push the definition's blob URL. -/
def handleGoToDefinition (defCtx : Pos) (e : MouseEvt) (s : CoordState) :
    CoordState × NavOutcome :=
  if hasModifier e then
    (s, { logs := [Telemetry.goToDefClicked], defaultPrevented := false, pushed := none })
  else
    ({ setFixedTooltip s none with tooltipShown := false },
     { logs := [Telemetry.goToDefClicked], defaultPrevented := true,
       pushed := some (NavTarget.blobURL defCtx) })

/-- `handleFindReferences` (lines 447-454): always log `FindRefsClicked`;
with any modifier held, return before touching the event or history;
otherwise prevent the default and push the references URL. -/
def handleFindReferences (ctx : Pos) (e : MouseEvt) (s : CoordState) :
    CoordState × NavOutcome :=
  if hasModifier e then
    (s, { logs := [Telemetry.findRefsClicked], defaultPrevented := false, pushed := none })
  else
    (s, { logs := [Telemetry.findRefsClicked], defaultPrevented := true,
          pushed := some (NavTarget.referencesURL ctx) })

/-- A concrete semantic position used by witnesses. -/
def pos0 : Pos := { onHead := true, line := 4, character := 2 }

theorem coordStep_sticky_le_one (s : CoordState) (e : CoordEvent)
    (h : s.sticky.length ≤ 1) : (coordStep s e).sticky.length ≤ 1 := by
  cases e with
  | dock d => simp [coordStep, setFixedTooltip, clearHighlightClasses]
  | dismiss => simp [coordStep, handleDismiss, setFixedTooltip, clearHighlightClasses]
  | keydown k =>
      simp only [coordStep, keydownStep]
      split
      · simp [handleDismiss, setFixedTooltip, clearHighlightClasses]
      · exact h
  | mouseout =>
      simp only [coordStep, mouseoutStep]
      split
      · exact h
      · exact h
  | hoverHighlight t => exact h
  | transientShow =>
      simp only [coordStep]
      split
      · exact h
      · exact h

/-- Claim C6: in every state reachable from mount, at most one anchor
carries the docked (sticky) marker, and the `fixedTooltip` field holds at
most one docked tooltip by construction; moreover docking position A and
then docking position B leaves B as the unique docked tooltip, with A's
sticky class removed (by the clearing loops that run before B's class is
applied — right after them no sticky class remains at all). -/
theorem at_most_one_active_tooltip :
    (∀ events : List CoordEvent, (runCoord events).sticky.length ≤ 1)
  ∧ (∀ (s : CoordState) (A B : TooltipData),
      (setFixedTooltip (setFixedTooltip s (some A)) (some B)).fixedTooltip = some B
    ∧ (setFixedTooltip (setFixedTooltip s (some A)) (some B)).sticky = [B.target]
    ∧ (clearHighlightClasses (setFixedTooltip s (some A))).sticky = []
    ∧ (A.target ≠ B.target →
        A.target ∉ (setFixedTooltip (setFixedTooltip s (some A)) (some B)).sticky)) := by
  constructor
  · intro events
    have key : ∀ (l : List CoordEvent) (s : CoordState), s.sticky.length ≤ 1 →
        (l.foldl coordStep s).sticky.length ≤ 1 := by
      intro l
      induction l with
      | nil => intro s h; exact h
      | cons e es ih => intro s h; exact ih _ (coordStep_sticky_le_one s e h)
    exact key events initState (by decide)
  · intro s A B
    refine ⟨rfl, rfl, rfl, ?_⟩
    intro hne
    simp [setFixedTooltip, clearHighlightClasses, hne]

/-- Witness for `at_most_one_active_tooltip`: docking anchor 1 and then
anchor 2 leaves one sticky anchor, and anchor 1 is no longer sticky. -/
theorem at_most_one_active_tooltip_witness :
    (runCoord [CoordEvent.dock { target := 1, ctx := pos0, contents := some "a" },
               CoordEvent.dock { target := 2, ctx := pos0, contents := some "b" }]).sticky.length ≤ 1
  ∧ ({ target := 1, ctx := pos0, contents := some "a" } : TooltipData).target ∉
      (setFixedTooltip (setFixedTooltip initState
          (some { target := 1, ctx := pos0, contents := some "a" }))
        (some { target := 2, ctx := pos0, contents := some "b" })).sticky :=
  ⟨at_most_one_active_tooltip.1
     [CoordEvent.dock { target := 1, ctx := pos0, contents := some "a" },
      CoordEvent.dock { target := 2, ctx := pos0, contents := some "b" }],
   (at_most_one_active_tooltip.2 initState
      { target := 1, ctx := pos0, contents := some "a" }
      { target := 2, ctx := pos0, contents := some "b" }).2.2.2 (by decide)⟩

/-- Claim C8: pressing Escape, or calling the explicit dismiss, clears any
docked tooltip unconditionally in every state (the handlers never consult
the pointer): afterwards no tooltip is fixed, the overlay is hidden (idle
display), and every highlight and sticky-highlight class is removed; the
Escape keydown path and the explicit dismiss produce the same state. -/
theorem escape_dismiss_clears (s : CoordState) :
    (keydownStep "Escape" s).fixedTooltip = none
  ∧ (keydownStep "Escape" s).sticky = []
  ∧ (keydownStep "Escape" s).highlighted = []
  ∧ (keydownStep "Escape" s).tooltipShown = false
  ∧ keydownStep "Escape" s = handleDismiss s := by
  have hk : keydownStep "Escape" s = handleDismiss s := by
    unfold keydownStep
    rw [if_pos rfl]
  refine ⟨?_, ?_, ?_, ?_, hk⟩ <;> rw [hk] <;> rfl

/-- Claim C4 counterexample: docking a position whose hover has content
but no definition target logs the no-definition TooltipDocked event twice
per docking, not exactly once — once when the hover payload (whose
definition field is still undefined) is docked by the pipe's tap, and once
more when the zipped definition result (still absent) is docked by the
subscriber. -/
theorem docked_telemetry_counterexample :
    ((dockPipeline (fun _ => some "doc") (fun _ => none) initState 7 pos0).logs.count
        Telemetry.tooltipDocked = 2)
  ∧ ¬ ((dockPipeline (fun _ => some "doc") (fun _ => none) initState 7 pos0).logs.count
        Telemetry.tooltipDocked = 1) := by
  decide

/-- Claim C4 amended: for a click docking a position with hover content
and no definition target, the docked tooltip is stored and the
no-definition TooltipDocked telemetry event is logged exactly twice per
docking (once per `setFixedTooltip` call of the fixed-tooltip pipe). -/
theorem docked_telemetry_twice (hover : Pos → Option String)
    (defSvc : DefCallSite → Option String) (s : CoordState) (t : Anchor) (c : Pos)
    (hc : hover c ≠ none) (hd : defSvc DefCallSite.dockReFetch = none) :
    (dockPipeline hover defSvc s t c).logs
      = s.logs ++ [Telemetry.tooltipDocked, Telemetry.tooltipDocked]
  ∧ (dockPipeline hover defSvc s t c).fixedTooltip
      = some { target := t, ctx := c, contents := hover c, defUrlOrError := none } := by
  unfold dockPipeline
  simp [hc, hd, setFixedTooltip, clearHighlightClasses]

/-- Witness for `docked_telemetry_twice` at a concrete docking. -/
theorem docked_telemetry_twice_witness :
    (dockPipeline (fun _ => some "hoverdoc") (fun _ => none) initState 3 pos0).logs
      = [Telemetry.tooltipDocked, Telemetry.tooltipDocked]
  ∧ (dockPipeline (fun _ => some "hoverdoc") (fun _ => none) initState 3 pos0).fixedTooltip
      = some { target := 3, ctx := pos0, contents := some "hoverdoc", defUrlOrError := none } := by
  have h := docked_telemetry_twice (fun _ => some "hoverdoc") (fun _ => none) initState 3 pos0
      (by decide) (by decide)
  simpa using h

/-- A definition service whose hover-time and dock-time answers differ,
exhibiting which of the two is attached to a docked tooltip. -/
def defSvcCex : DefCallSite → Option String
  | DefCallSite.hoverPreFetch => some "urlA"
  | DefCallSite.dockReFetch => some "urlB"

/-- Claim C3 counterexample: the hover gesture subscribes no definition
lookup (the line-274 observable is discarded), and docking performs its
own definition round trip whose result — not the hover-time one — is the
definition target attached to the docked tooltip: with a service answering
urlA at hover time and urlB at dock time, the docked tooltip carries urlB. -/
theorem dock_definition_counterexample :
    (FetchEvent.defFetch DefCallSite.hoverPreFetch pos0 ∉ hoverGestureFetches pos0)
  ∧ ((dockFetches pos0).count (FetchEvent.defFetch DefCallSite.dockReFetch pos0) = 1)
  ∧ ((dockPipeline (fun _ => some "doc") defSvcCex initState 7 pos0).fixedTooltip.map
        TooltipData.defUrlOrError = some (some "urlB"))
  ∧ defSvcCex DefCallSite.hoverPreFetch ≠ some "urlB" := by
  decide

/-- Claim C3 amended: the hover gesture awaits no definition round trip
(the observable built by `this.getDefinition(ctx)` on line 274 is
discarded unsubscribed, so its value never reaches the pipeline); docking
subscribes exactly one fresh definition lookup, and the value attached to
the docked tooltip's definition target is that dock-time result. -/
theorem dock_definition_refetched (hover : Pos → Option String)
    (defSvc : DefCallSite → Option String) (s : CoordState) (t : Anchor) (c : Pos)
    (hc : hover c ≠ none) :
    (∀ site c2, FetchEvent.defFetch site c2 ∉ hoverGestureFetches c)
  ∧ (dockFetches c).count (FetchEvent.defFetch DefCallSite.dockReFetch c) = 1
  ∧ (dockPipeline hover defSvc s t c).fixedTooltip
      = some { target := t, ctx := c, contents := hover c,
               defUrlOrError := defSvc DefCallSite.dockReFetch } := by
  refine ⟨?_, ?_, ?_⟩
  · intro site c2
    simp [hoverGestureFetches]
  · simp [dockFetches]
  · unfold dockPipeline
    simp [hc, setFixedTooltip, clearHighlightClasses]

/-- Witness for `dock_definition_refetched` at a concrete docking. -/
theorem dock_definition_refetched_witness :
    FetchEvent.defFetch DefCallSite.hoverPreFetch pos0 ∉ hoverGestureFetches pos0
  ∧ (dockPipeline (fun _ => some "d") (fun _ => some "urlZ") initState 2 pos0).fixedTooltip
      = some { target := 2, ctx := pos0, contents := some "d", defUrlOrError := some "urlZ" } := by
  have h := dock_definition_refetched (fun _ => some "d") (fun _ => some "urlZ") initState 2 pos0
      (by decide)
  exact ⟨h.1 DefCallSite.hoverPreFetch pos0, h.2.2⟩

/-- Claim C9: both navigation handlers are modifier-gated — a click event
carrying any of shift, ctrl, alt or meta leaves the default behaviour
untouched (no preventDefault) and pushes nothing onto the history, while a
click with no modifier prevents the default and pushes the definition's
blob URL respectively the references URL. -/
theorem nav_modifier_gated (c : Pos) (e : MouseEvt) (s : CoordState) :
    (hasModifier e = true →
        (handleGoToDefinition c e s).2.defaultPrevented = false
      ∧ (handleGoToDefinition c e s).2.pushed = none
      ∧ (handleFindReferences c e s).2.defaultPrevented = false
      ∧ (handleFindReferences c e s).2.pushed = none)
  ∧ (hasModifier e = false →
        (handleGoToDefinition c e s).2.defaultPrevented = true
      ∧ (handleGoToDefinition c e s).2.pushed = some (NavTarget.blobURL c)
      ∧ (handleFindReferences c e s).2.defaultPrevented = true
      ∧ (handleFindReferences c e s).2.pushed = some (NavTarget.referencesURL c)) := by
  constructor
  · intro h
    simp [handleGoToDefinition, handleFindReferences, h]
  · intro h
    simp [handleGoToDefinition, handleFindReferences, h]

/-- Witness for `nav_modifier_gated`: a shift-click pushes nothing, a
plain click pushes the blob URL and prevents the default. -/
theorem nav_modifier_gated_witness :
    (handleGoToDefinition pos0
        { shiftKey := true, ctrlKey := false, altKey := false, metaKey := false }
        initState).2.pushed = none
  ∧ (handleGoToDefinition pos0
        { shiftKey := false, ctrlKey := false, altKey := false, metaKey := false }
        initState).2.pushed = some (NavTarget.blobURL pos0)
  ∧ (handleFindReferences pos0
        { shiftKey := false, ctrlKey := false, altKey := false, metaKey := false }
        initState).2.defaultPrevented = true :=
  ⟨((nav_modifier_gated pos0
       { shiftKey := true, ctrlKey := false, altKey := false, metaKey := false }
       initState).1 (by decide)).2.1,
   ((nav_modifier_gated pos0
       { shiftKey := false, ctrlKey := false, altKey := false, metaKey := false }
       initState).2 (by decide)).2.1,
   ((nav_modifier_gated pos0
       { shiftKey := false, ctrlKey := false, altKey := false, metaKey := false }
       initState).2 (by decide)).2.2.1⟩

end FileDiffHunks
